import Mathlib

/-!  Shallow embedding of the SecureRes image conversion core:
     the types and the processing pipeline of src/services/imageService.ts
     (together with src/types.ts, inlined there) and the settings-validation
     logic of src/App.tsx.

     Machine integers of the source (pixel dimensions) are modelled as ℤ;
     the real-valued ratio geometry is modelled over ℚ.  -/

namespace SecureRes

/-- `ResolutionPreset` enum of src/types.ts; each variant carries a string
    label, recovered by `presetLabel`. -/
inductive ResolutionPreset
  | UHD_4K
  | QHD_2K
  | FHD_1080
  | HD_720
  | CUSTOM
deriving DecidableEq

/-- The string value of each `ResolutionPreset` variant in src/types.ts. -/
def presetLabel : ResolutionPreset → String
  | .UHD_4K => "4K UHD"
  | .QHD_2K => "2K QHD"
  | .FHD_1080 => "1080p FHD"
  | .HD_720 => "720p HD"
  | .CUSTOM => "Custom"

/-- `OutputFormat` enum of src/types.ts. -/
inductive OutputFormat
  | PNG
  | JPEG
  | WEBP
deriving DecidableEq

/-- `FitMode` enum of src/types.ts. -/
inductive FitMode
  | CONTAIN
  | COVER
  | STRETCH
deriving DecidableEq

/-- `ProcessingSettings` interface of src/types.ts. -/
structure ProcessingSettings where
  preset : ResolutionPreset
  width : ℤ
  height : ℤ
  format : OutputFormat
  quality : ℚ
  fitMode : FitMode
  keepAspectRatio : Bool
  backgroundColor : String
deriving DecidableEq

/-- `ResolutionDef` interface of src/types.ts. -/
structure ResolutionDef where
  width : ℤ
  height : ℤ
deriving DecidableEq

/-- The `RESOLUTIONS` catalog of src/types.ts. -/
def RESOLUTIONS : ResolutionPreset → ResolutionDef
  | .UHD_4K => { width := 3840, height := 2160 }
  | .QHD_2K => { width := 2560, height := 1440 }
  | .FHD_1080 => { width := 1920, height := 1080 }
  | .HD_720 => { width := 1280, height := 720 }
  | .CUSTOM => { width := 0, height := 0 }

/-- Step 2 of `renderToCanvas` (src/services/imageService.ts lines 44-56):
    target dimensions start from the settings record, are overridden by the
    catalog when the preset is not Custom, and then pass the safety check
    `if (!targetWidth || targetWidth <= 0) targetWidth = imageSource.width || 1920`
    (and symmetrically for the height, with fallback 1080).  `imageW`/`imageH`
    are the natural dimensions of the decoded source image; the JS falsiness
    of `0` is modelled by the explicit comparison with `0`. -/
def resolveTargetDimensions (imageW imageH : ℤ) (settings : ProcessingSettings) : ℤ × ℤ :=
  let targetWidth := settings.width
  let targetHeight := settings.height
  let targetWidth :=
    if settings.preset ≠ ResolutionPreset.CUSTOM then (RESOLUTIONS settings.preset).width
    else targetWidth
  let targetHeight :=
    if settings.preset ≠ ResolutionPreset.CUSTOM then (RESOLUTIONS settings.preset).height
    else targetHeight
  let targetWidth :=
    if targetWidth = 0 ∨ targetWidth ≤ 0 then (if imageW = 0 then 1920 else imageW)
    else targetWidth
  let targetHeight :=
    if targetHeight = 0 ∨ targetHeight ≤ 0 then (if imageH = 0 then 1080 else imageH)
    else targetHeight
  (targetWidth, targetHeight)

/-- What step 5 of `renderToCanvas` does to the canvas before the image is
    drawn: either a `fillRect` over the whole frame with a given fill style,
    or a `clearRect` over the whole frame. -/
inductive BgAction
  | fill (color : String)
  | clear
deriving DecidableEq

/-- The `ctx.fillStyle` assignment of src/services/imageService.ts lines 74-78:
    black when the format is JPEG and the background color is "transparent",
    the settings' background color otherwise. -/
def effectiveFillStyle (settings : ProcessingSettings) : String :=
  if settings.format = OutputFormat.JPEG ∧ settings.backgroundColor = ("transparent")
  then "#000000"
  else settings.backgroundColor

/-- The Clear/Fill step of src/services/imageService.ts lines 81-85: the
    branch is decided by `settings.backgroundColor !== 'transparent'`, and a
    fill uses the previously assigned `ctx.fillStyle`. -/
def backgroundAction (settings : ProcessingSettings) : BgAction :=
  if settings.backgroundColor ≠ ("transparent")
  then BgAction.fill (effectiveFillStyle settings)
  else BgAction.clear

/-- The placement rectangle computed by step 6 of `renderToCanvas`:
    `drawX`, `drawY`, `drawW`, `drawH`. -/
structure Placement where
  drawX : ℚ
  drawY : ℚ
  drawW : ℚ
  drawH : ℚ
deriving DecidableEq

/-- Step 6 of `renderToCanvas` (src/services/imageService.ts lines 87-123):
    the draw variables default to `(0, 0, targetWidth, targetHeight)`; the
    ratios `srcRatio = srcW / srcH` and `dstRatio = targetWidth / targetHeight`
    select the branch for Contain and Cover; Stretch keeps the defaults. -/
def placement (srcW srcH targetWidth targetHeight : ℚ) (fitMode : FitMode) : Placement :=
  let drawX : ℚ := 0
  let drawY : ℚ := 0
  let drawW : ℚ := targetWidth
  let drawH : ℚ := targetHeight
  let srcRatio : ℚ := srcW / srcH
  let dstRatio : ℚ := targetWidth / targetHeight
  if fitMode = FitMode.CONTAIN then
    if srcRatio > dstRatio then
      let drawW := targetWidth
      let drawH := targetWidth / srcRatio
      let drawY := (targetHeight - drawH) / 2
      { drawX := drawX, drawY := drawY, drawW := drawW, drawH := drawH }
    else
      let drawH := targetHeight
      let drawW := targetHeight * srcRatio
      let drawX := (targetWidth - drawW) / 2
      { drawX := drawX, drawY := drawY, drawW := drawW, drawH := drawH }
  else if fitMode = FitMode.COVER then
    if srcRatio > dstRatio then
      let drawH := targetHeight
      let drawW := targetHeight * srcRatio
      let drawX := (targetWidth - drawW) / 2
      { drawX := drawX, drawY := drawY, drawW := drawW, drawH := drawH }
    else
      let drawW := targetWidth
      let drawH := targetWidth / srcRatio
      let drawY := (targetHeight - drawH) / 2
      { drawX := drawX, drawY := drawY, drawW := drawW, drawH := drawH }
  else
    { drawX := drawX, drawY := drawY, drawW := drawW, drawH := drawH }

/-- JS `split('.')` (src/services/imageService.ts line 142), modelled
    structurally on the character list of the string: the pieces between the
    occurrences of the dot, in order, empty pieces included. -/
def splitOnDot : List Char → List (List Char)
  | [] => [[]]
  | c :: rest =>
    let r := splitOnDot rest
    if c = '.' then [] :: r
    else
      match r with
      | [] => [[c]]
      | h :: t => (c :: h) :: t

/-- JS `join('.')` (src/services/imageService.ts line 144). -/
def joinWithDot : List String → String
  | [] => ""
  | [s] => s
  | s :: rest => s ++ "." ++ joinWithDot rest

/-- The base-name computation of src/services/imageService.ts lines 142-144:
    split on ".", drop the last part when there are at least two, re-join. -/
def baseNameOf (originalFilename : String) : String :=
  let nameParts := (splitOnDot originalFilename.data).map String.mk
  let nameParts := if nameParts.length > 1 then nameParts.dropLast else nameParts
  joinWithDot nameParts

/-- The regex replace `\s -> ''` applied to the preset label in
    src/services/imageService.ts line 150. -/
def removeWhitespace (s : String) : String :=
  String.mk (s.data.filter (fun c => !c.isWhitespace))

/-- The filename derivation of src/services/imageService.ts lines 141-150:
    base name, `_WxH_`, the preset label with whitespace removed, and the
    extension chosen by the sequential ifs starting from "jpg". -/
def makeFilename (originalFilename : String) (targetWidth targetHeight : ℤ)
    (preset : ResolutionPreset) (format : OutputFormat) : String :=
  let baseName := baseNameOf originalFilename
  let ext := "jpg"
  let ext := if format = OutputFormat.PNG then "png" else ext
  let ext := if format = OutputFormat.WEBP then "webp" else ext
  baseName ++ "_" ++ toString targetWidth ++ "x" ++ toString targetHeight ++ "_"
    ++ removeWhitespace (presetLabel preset) ++ "." ++ ext

/-- The fields of the `ProcessedImage` result (src/services/imageService.ts
    lines 152-158) that the deterministic core computes; the blob and the
    object URL come from the external encoder. -/
structure ProcessedImage where
  filename : String
  width : ℤ
  height : ℤ
deriving DecidableEq

/-- Everything `renderToCanvas` decides deterministically: the background
    action, the placement rectangle, the quality handed to the encoder
    (none for PNG, src/services/imageService.ts line 130), and the result
    metadata. -/
structure RenderOutcome where
  bg : BgAction
  place : Placement
  quality : Option ℚ
  result : ProcessedImage
deriving DecidableEq

/-- The deterministic core of `renderToCanvas`
    (src/services/imageService.ts lines 39-164), assuming the external
    canvas context and encoder succeed: resolve target dimensions, decide
    the background action, compute the placement, pick the encoder quality,
    and assemble the result metadata. -/
def renderToCanvas (imageW imageH : ℤ) (originalFilename : String)
    (settings : ProcessingSettings) : RenderOutcome :=
  let dims := resolveTargetDimensions imageW imageH settings
  let targetWidth := dims.1
  let targetHeight := dims.2
  let bg := backgroundAction settings
  let place :=
    placement (imageW : ℚ) (imageH : ℚ) (targetWidth : ℚ) (targetHeight : ℚ) settings.fitMode
  let quality := if settings.format = OutputFormat.PNG then none else some settings.quality
  let filename := makeFilename originalFilename targetWidth targetHeight settings.preset settings.format
  { bg := bg, place := place, quality := quality,
    result := { filename := filename, width := targetWidth, height := targetHeight } }

/-- The `widthError` validation of src/App.tsx line 33. -/
def widthError (settings : ProcessingSettings) : Option String :=
  if settings.preset = ResolutionPreset.CUSTOM ∧ settings.width ≤ 0
  then some ("Width must be positive")
  else none

/-- The `heightError` validation of src/App.tsx line 34. -/
def heightError (settings : ProcessingSettings) : Option String :=
  if settings.preset = ResolutionPreset.CUSTOM ∧ settings.height ≤ 0
  then some ("Height must be positive")
  else none

/-- The `isValid` flag of src/App.tsx line 35. -/
def isValid (settings : ProcessingSettings) : Bool :=
  (widthError settings).isNone && (heightError settings).isNone

/-- Whether `handleProcess` of src/App.tsx lines 90-104 invokes the
    processing pipeline: it returns immediately when no file is selected or
    `isValid` is false. -/
def handleProcessRuns (hasFile : Bool) (settings : ProcessingSettings) : Bool :=
  hasFile && isValid settings

/-- Stated from the spec wording of step 6 of the pipeline (spec section 4.3):
    the format's canonical extension, `jpg`, `png` or `webp`. -/
def specCanonicalExt : OutputFormat → String
  | .PNG => "png"
  | .JPEG => "jpg"
  | .WEBP => "webp"

/-- Stated from the spec wording of step 6 of the pipeline (spec section 4.3):
    the preset label with spaces removed, written out per preset. -/
def specPresetTag : ResolutionPreset → String
  | .UHD_4K => "4KUHD"
  | .QHD_2K => "2KQHD"
  | .FHD_1080 => "1080pFHD"
  | .HD_720 => "720pHD"
  | .CUSTOM => "Custom"

/-- Stated from the spec wording of step 6 of the pipeline (spec section 4.3):
    base name, then `_WxH_` and the preset tag, then the canonical
    extension. -/
def specFilename (originalFilename : String) (w h : ℤ)
    (preset : ResolutionPreset) (format : OutputFormat) : String :=
  baseNameOf originalFilename ++ "_" ++ toString w ++ "x" ++ toString h ++ "_"
    ++ specPresetTag preset ++ "." ++ specCanonicalExt format

/-- Closed form of `placement` in Contain mode. -/
lemma placement_contain_eq (srcW srcH tW tH : ℚ) :
    placement srcW srcH tW tH FitMode.CONTAIN =
      if srcW / srcH > tW / tH then
        { drawX := 0, drawY := (tH - tW / (srcW / srcH)) / 2,
          drawW := tW, drawH := tW / (srcW / srcH) }
      else
        { drawX := (tW - tH * (srcW / srcH)) / 2, drawY := 0,
          drawW := tH * (srcW / srcH), drawH := tH } := by
  simp only [placement]
  split_ifs <;> simp_all

/-- Closed form of `placement` in Cover mode. -/
lemma placement_cover_eq (srcW srcH tW tH : ℚ) :
    placement srcW srcH tW tH FitMode.COVER =
      if srcW / srcH > tW / tH then
        { drawX := (tW - tH * (srcW / srcH)) / 2, drawY := 0,
          drawW := tH * (srcW / srcH), drawH := tH }
      else
        { drawX := 0, drawY := (tH - tW / (srcW / srcH)) / 2,
          drawW := tW, drawH := tW / (srcW / srcH) } := by
  simp only [placement]
  split_ifs <;> simp_all

/-- Closed form of `placement` in Stretch mode. -/
lemma placement_stretch_eq (srcW srcH tW tH : ℚ) :
    placement srcW srcH tW tH FitMode.STRETCH =
      { drawX := 0, drawY := 0, drawW := tW, drawH := tH } := rfl

/-- Claim C7: for every source image and target dimensions, Stretch mode
    produces the placement rectangle `(0, 0, targetW, targetH)`, independent
    of the source aspect ratio. -/
theorem stretch_placement_full_target (srcW srcH tW tH : ℚ) :
    placement srcW srcH tW tH FitMode.STRETCH =
      { drawX := 0, drawY := 0, drawW := tW, drawH := tH } :=
  placement_stretch_eq srcW srcH tW tH

/-- Claim C4, counterexample: at the ratio tie 100x100 source into 200x200
    target, Contain yields drawW = targetW and drawH = targetH at the same
    time, so "exactly one of drawW == targetW or drawH == targetH" fails. -/
theorem contain_tie_counterexample :
    (placement 100 100 200 200 FitMode.CONTAIN).drawW = 200 ∧
    (placement 100 100 200 200 FitMode.CONTAIN).drawH = 200 ∧
    ¬ (((placement 100 100 200 200 FitMode.CONTAIN).drawW = 200 ∧
          ¬ (placement 100 100 200 200 FitMode.CONTAIN).drawH = 200) ∨
        (¬ (placement 100 100 200 200 FitMode.CONTAIN).drawW = 200 ∧
          (placement 100 100 200 200 FitMode.CONTAIN).drawH = 200)) := by
  rw [placement_contain_eq, if_neg (by norm_num)]
  norm_num

/-- Claim C4 (amended): for strictly positive source and target dimensions,
    Contain yields drawW ≤ targetW and drawH ≤ targetH, at least one of the
    two equalities drawW = targetW, drawH = targetH — exactly one whenever
    the source and target ratios differ, both at a tie — the rectangle is
    centered, and the tie takes the height-bound branch. -/
theorem contain_placement_spec (srcW srcH tW tH : ℚ)
    (hsw : 0 < srcW) (hsh : 0 < srcH) (htw : 0 < tW) (hth : 0 < tH) :
    (placement srcW srcH tW tH FitMode.CONTAIN).drawW ≤ tW ∧
    (placement srcW srcH tW tH FitMode.CONTAIN).drawH ≤ tH ∧
    ((placement srcW srcH tW tH FitMode.CONTAIN).drawW = tW ∨
      (placement srcW srcH tW tH FitMode.CONTAIN).drawH = tH) ∧
    (srcW / srcH ≠ tW / tH →
      ¬ ((placement srcW srcH tW tH FitMode.CONTAIN).drawW = tW ∧
          (placement srcW srcH tW tH FitMode.CONTAIN).drawH = tH)) ∧
    (placement srcW srcH tW tH FitMode.CONTAIN).drawX
      = (tW - (placement srcW srcH tW tH FitMode.CONTAIN).drawW) / 2 ∧
    (placement srcW srcH tW tH FitMode.CONTAIN).drawY
      = (tH - (placement srcW srcH tW tH FitMode.CONTAIN).drawH) / 2 ∧
    (srcW / srcH = tW / tH →
      (placement srcW srcH tW tH FitMode.CONTAIN).drawH = tH ∧
      (placement srcW srcH tW tH FitMode.CONTAIN).drawW = tH * (srcW / srcH)) := by
  have hr : 0 < srcW / srcH := div_pos hsw hsh
  have hh0 : tH ≠ 0 := ne_of_gt hth
  rw [placement_contain_eq]
  split_ifs with hgt
  · have hlt : tW < srcW / srcH * tH := (div_lt_iff₀ hth).mp hgt
    refine ⟨le_refl _, ?_, Or.inl rfl, ?_, by simp, rfl, ?_⟩
    · show tW / (srcW / srcH) ≤ tH
      rw [div_le_iff₀ hr]
      nlinarith
    · rintro hne ⟨-, hWH⟩
      have h2 : tW = tH * (srcW / srcH) := (div_eq_iff (ne_of_gt hr)).mp hWH
      have h3 : tW / tH = srcW / srcH := by
        rw [h2]
        exact mul_div_cancel_left₀ _ hh0
      rw [h3] at hgt
      exact lt_irrefl _ hgt
    · intro heq
      rw [heq] at hgt
      exact absurd hgt (lt_irrefl _)
  · have hle : srcW / srcH ≤ tW / tH := not_lt.mp hgt
    have h1 : srcW / srcH * tH ≤ tW := (le_div_iff₀ hth).mp hle
    refine ⟨?_, le_refl _, Or.inr rfl, ?_, rfl, by simp, fun _ => ⟨rfl, rfl⟩⟩
    · show tH * (srcW / srcH) ≤ tW
      linarith [mul_comm (srcW / srcH) tH]
    · rintro hne ⟨hW, -⟩
      have h2 : tW / tH = srcW / srcH := by
        rw [← hW]
        exact mul_div_cancel_left₀ _ hh0
      exact hne h2.symm

/-- Claim C4, witness: the spec's own example, source 4000x2000 into target
    3840x2160 in Contain mode. -/
theorem contain_placement_spec_witness :
    (placement 4000 2000 3840 2160 FitMode.CONTAIN).drawW ≤ 3840 ∧
    (placement 4000 2000 3840 2160 FitMode.CONTAIN).drawH ≤ 2160 ∧
    ((placement 4000 2000 3840 2160 FitMode.CONTAIN).drawW = 3840 ∨
      (placement 4000 2000 3840 2160 FitMode.CONTAIN).drawH = 2160) ∧
    ((4000 : ℚ) / 2000 ≠ 3840 / 2160 →
      ¬ ((placement 4000 2000 3840 2160 FitMode.CONTAIN).drawW = 3840 ∧
          (placement 4000 2000 3840 2160 FitMode.CONTAIN).drawH = 2160)) ∧
    (placement 4000 2000 3840 2160 FitMode.CONTAIN).drawX
      = (3840 - (placement 4000 2000 3840 2160 FitMode.CONTAIN).drawW) / 2 ∧
    (placement 4000 2000 3840 2160 FitMode.CONTAIN).drawY
      = (2160 - (placement 4000 2000 3840 2160 FitMode.CONTAIN).drawH) / 2 ∧
    ((4000 : ℚ) / 2000 = 3840 / 2160 →
      (placement 4000 2000 3840 2160 FitMode.CONTAIN).drawH = 2160 ∧
      (placement 4000 2000 3840 2160 FitMode.CONTAIN).drawW
        = 2160 * ((4000 : ℚ) / 2000)) :=
  contain_placement_spec 4000 2000 3840 2160
    (by norm_num) (by norm_num) (by norm_num) (by norm_num)

/-- Claim C5, counterexample: at the ratio tie 50x50 source into 300x300
    target, Cover yields drawW = targetW and drawH = targetH at the same
    time, so "exactly one of drawW == targetW or drawH == targetH" fails. -/
theorem cover_tie_counterexample :
    (placement 50 50 300 300 FitMode.COVER).drawW = 300 ∧
    (placement 50 50 300 300 FitMode.COVER).drawH = 300 ∧
    ¬ (((placement 50 50 300 300 FitMode.COVER).drawW = 300 ∧
          ¬ (placement 50 50 300 300 FitMode.COVER).drawH = 300) ∨
        (¬ (placement 50 50 300 300 FitMode.COVER).drawW = 300 ∧
          (placement 50 50 300 300 FitMode.COVER).drawH = 300)) := by
  rw [placement_cover_eq, if_neg (by norm_num)]
  norm_num

/-- Claim C5 (amended): for strictly positive source and target dimensions,
    Cover yields drawW ≥ targetW and drawH ≥ targetH, at least one of the
    two equalities drawW = targetW, drawH = targetH — exactly one whenever
    the source and target ratios differ, both at a tie — and the rectangle
    is centered. -/
theorem cover_placement_spec (srcW srcH tW tH : ℚ)
    (hsw : 0 < srcW) (hsh : 0 < srcH) (htw : 0 < tW) (hth : 0 < tH) :
    tW ≤ (placement srcW srcH tW tH FitMode.COVER).drawW ∧
    tH ≤ (placement srcW srcH tW tH FitMode.COVER).drawH ∧
    ((placement srcW srcH tW tH FitMode.COVER).drawW = tW ∨
      (placement srcW srcH tW tH FitMode.COVER).drawH = tH) ∧
    (srcW / srcH ≠ tW / tH →
      ¬ ((placement srcW srcH tW tH FitMode.COVER).drawW = tW ∧
          (placement srcW srcH tW tH FitMode.COVER).drawH = tH)) ∧
    (placement srcW srcH tW tH FitMode.COVER).drawX
      = (tW - (placement srcW srcH tW tH FitMode.COVER).drawW) / 2 ∧
    (placement srcW srcH tW tH FitMode.COVER).drawY
      = (tH - (placement srcW srcH tW tH FitMode.COVER).drawH) / 2 := by
  have hr : 0 < srcW / srcH := div_pos hsw hsh
  have hh0 : tH ≠ 0 := ne_of_gt hth
  rw [placement_cover_eq]
  split_ifs with hgt
  · have hlt : tW < srcW / srcH * tH := (div_lt_iff₀ hth).mp hgt
    refine ⟨?_, le_refl _, Or.inr rfl, ?_, rfl, by simp⟩
    · show tW ≤ tH * (srcW / srcH)
      linarith [mul_comm (srcW / srcH) tH]
    · rintro hne ⟨hW, -⟩
      have h2 : tW / tH = srcW / srcH := by
        rw [← hW]
        exact mul_div_cancel_left₀ _ hh0
      exact hne h2.symm
  · have hle : srcW / srcH ≤ tW / tH := not_lt.mp hgt
    have h1 : srcW / srcH * tH ≤ tW := (le_div_iff₀ hth).mp hle
    refine ⟨le_refl _, ?_, Or.inl rfl, ?_, by simp, rfl⟩
    · show tH ≤ tW / (srcW / srcH)
      rw [le_div_iff₀ hr]
      linarith [mul_comm (srcW / srcH) tH]
    · rintro hne ⟨-, hWH⟩
      have h2 : tW = tH * (srcW / srcH) := (div_eq_iff (ne_of_gt hr)).mp hWH
      have h3 : tW / tH = srcW / srcH := by
        rw [h2]
        exact mul_div_cancel_left₀ _ hh0
      exact hne h3.symm

/-- Claim C5, witness: the spec's own example, source 4000x2000 into target
    3840x2160 in Cover mode. -/
theorem cover_placement_spec_witness :
    (3840 : ℚ) ≤ (placement 4000 2000 3840 2160 FitMode.COVER).drawW ∧
    (2160 : ℚ) ≤ (placement 4000 2000 3840 2160 FitMode.COVER).drawH ∧
    ((placement 4000 2000 3840 2160 FitMode.COVER).drawW = 3840 ∨
      (placement 4000 2000 3840 2160 FitMode.COVER).drawH = 2160) ∧
    ((4000 : ℚ) / 2000 ≠ 3840 / 2160 →
      ¬ ((placement 4000 2000 3840 2160 FitMode.COVER).drawW = 3840 ∧
          (placement 4000 2000 3840 2160 FitMode.COVER).drawH = 2160)) ∧
    (placement 4000 2000 3840 2160 FitMode.COVER).drawX
      = (3840 - (placement 4000 2000 3840 2160 FitMode.COVER).drawW) / 2 ∧
    (placement 4000 2000 3840 2160 FitMode.COVER).drawY
      = (2160 - (placement 4000 2000 3840 2160 FitMode.COVER).drawH) / 2 :=
  cover_placement_spec 4000 2000 3840 2160
    (by norm_num) (by norm_num) (by norm_num) (by norm_num)

/-- Claim C6: for strictly positive source and target dimensions, Contain
    and Cover preserve the source aspect ratio (drawW / drawH equals
    srcW / srcH exactly over ℚ), while Stretch yields that ratio exactly
    when the source and target ratios coincide. -/
theorem aspect_ratio_behavior (srcW srcH tW tH : ℚ)
    (hsw : 0 < srcW) (hsh : 0 < srcH) (htw : 0 < tW) (hth : 0 < tH) :
    (placement srcW srcH tW tH FitMode.CONTAIN).drawW
      / (placement srcW srcH tW tH FitMode.CONTAIN).drawH = srcW / srcH ∧
    (placement srcW srcH tW tH FitMode.COVER).drawW
      / (placement srcW srcH tW tH FitMode.COVER).drawH = srcW / srcH ∧
    ((placement srcW srcH tW tH FitMode.STRETCH).drawW
      / (placement srcW srcH tW tH FitMode.STRETCH).drawH = srcW / srcH
      ↔ srcW / srcH = tW / tH) := by
  have hr : 0 < srcW / srcH := div_pos hsw hsh
  have hr0 : srcW / srcH ≠ 0 := ne_of_gt hr
  have hw0 : tW ≠ 0 := ne_of_gt htw
  have hh0 : tH ≠ 0 := ne_of_gt hth
  refine ⟨?_, ?_, ?_⟩
  · rw [placement_contain_eq]
    split_ifs with hgt
    · show tW / (tW / (srcW / srcH)) = srcW / srcH
      rw [div_div_eq_mul_div, mul_comm]
      exact mul_div_cancel_right₀ _ hw0
    · show tH * (srcW / srcH) / tH = srcW / srcH
      exact mul_div_cancel_left₀ _ hh0
  · rw [placement_cover_eq]
    split_ifs with hgt
    · show tH * (srcW / srcH) / tH = srcW / srcH
      exact mul_div_cancel_left₀ _ hh0
    · show tW / (tW / (srcW / srcH)) = srcW / srcH
      rw [div_div_eq_mul_div, mul_comm]
      exact mul_div_cancel_right₀ _ hw0
  · rw [placement_stretch_eq]
    exact eq_comm

/-- Claim C6, witness: source 4000x2000 into target 3840x2160. -/
theorem aspect_ratio_behavior_witness :
    (placement 4000 2000 3840 2160 FitMode.CONTAIN).drawW
      / (placement 4000 2000 3840 2160 FitMode.CONTAIN).drawH = 4000 / 2000 ∧
    (placement 4000 2000 3840 2160 FitMode.COVER).drawW
      / (placement 4000 2000 3840 2160 FitMode.COVER).drawH = 4000 / 2000 ∧
    ((placement 4000 2000 3840 2160 FitMode.STRETCH).drawW
      / (placement 4000 2000 3840 2160 FitMode.STRETCH).drawH = 4000 / 2000
      ↔ (4000 : ℚ) / 2000 = 3840 / 2160) :=
  aspect_ratio_behavior 4000 2000 3840 2160
    (by norm_num) (by norm_num) (by norm_num) (by norm_num)

/-- Claim C2, counterexample: with backgroundColor "transparent" and format
    JPEG the fill style is resolved to opaque black, but the Clear/Fill step
    tests the original backgroundColor, so the frame is cleared rather than
    filled with that black background. -/
theorem transparent_jpeg_counterexample :
    effectiveFillStyle
      { preset := ResolutionPreset.UHD_4K, width := 3840, height := 2160,
        format := OutputFormat.JPEG, quality := 9/10, fitMode := FitMode.CONTAIN,
        keepAspectRatio := true, backgroundColor := "transparent" } = "#000000" ∧
    backgroundAction
      { preset := ResolutionPreset.UHD_4K, width := 3840, height := 2160,
        format := OutputFormat.JPEG, quality := 9/10, fitMode := FitMode.CONTAIN,
        keepAspectRatio := true, backgroundColor := "transparent" }
      = BgAction.clear := by
  constructor
  · rfl
  · rfl

/-- Claim C2 (amended): transparent + JPEG resolves the fill style to opaque
    black, but the Clear/Fill decision uses the original backgroundColor, so
    any "transparent" background — JPEG included — leaves the frame cleared
    with no fill, and any non-transparent background fills the frame with
    that color as given. -/
theorem background_fill_behavior (s : ProcessingSettings) :
    (s.format = OutputFormat.JPEG ∧ s.backgroundColor = "transparent" →
      effectiveFillStyle s = "#000000" ∧ backgroundAction s = BgAction.clear) ∧
    (s.backgroundColor ≠ "transparent" →
      backgroundAction s = BgAction.fill s.backgroundColor) ∧
    (s.backgroundColor = "transparent" → backgroundAction s = BgAction.clear) := by
  refine ⟨?_, ?_, ?_⟩
  · rintro ⟨hf, hb⟩
    constructor
    · simp [effectiveFillStyle, hf, hb]
    · simp [backgroundAction, hb]
  · intro hb
    have hfs : effectiveFillStyle s = s.backgroundColor := by
      simp only [effectiveFillStyle, ite_eq_right_iff]
      rintro ⟨-, hbt⟩
      exact absurd hbt hb
    simp [backgroundAction, hb, hfs]
  · intro hb
    simp [backgroundAction, hb]

/-- Claim C2, witness: the amended statement applied to a transparent JPEG
    settings record and to an opaque white PNG settings record. -/
theorem background_fill_behavior_witness :
    (effectiveFillStyle
        { preset := ResolutionPreset.UHD_4K, width := 3840, height := 2160,
          format := OutputFormat.JPEG, quality := 9/10, fitMode := FitMode.CONTAIN,
          keepAspectRatio := true, backgroundColor := "transparent" } = "#000000" ∧
      backgroundAction
        { preset := ResolutionPreset.UHD_4K, width := 3840, height := 2160,
          format := OutputFormat.JPEG, quality := 9/10, fitMode := FitMode.CONTAIN,
          keepAspectRatio := true, backgroundColor := "transparent" }
        = BgAction.clear) ∧
    backgroundAction
      { preset := ResolutionPreset.UHD_4K, width := 3840, height := 2160,
        format := OutputFormat.PNG, quality := 9/10, fitMode := FitMode.CONTAIN,
        keepAspectRatio := true, backgroundColor := "#FFFFFF" }
      = BgAction.fill ("#FFFFFF") :=
  ⟨(background_fill_behavior
      { preset := ResolutionPreset.UHD_4K, width := 3840, height := 2160,
        format := OutputFormat.JPEG, quality := 9/10, fitMode := FitMode.CONTAIN,
        keepAspectRatio := true, backgroundColor := "transparent" }).1
      ⟨rfl, rfl⟩,
    (background_fill_behavior
      { preset := ResolutionPreset.UHD_4K, width := 3840, height := 2160,
        format := OutputFormat.PNG, quality := 9/10, fitMode := FitMode.CONTAIN,
        keepAspectRatio := true, backgroundColor := "#FFFFFF" }).2.1
      (by decide)⟩

/-- Claim C1, counterexample: invoked directly with Custom width 0 (and
    height 100) on an 800x600 source, the pipeline does not fail with any
    error — it substitutes the source width and produces a complete result,
    800x100, named accordingly. -/
theorem invalid_custom_processed_counterexample :
    (renderToCanvas 800 600 ("photo.png")
        { preset := ResolutionPreset.CUSTOM, width := 0, height := 100,
          format := OutputFormat.JPEG, quality := 9/10, fitMode := FitMode.STRETCH,
          keepAspectRatio := true, backgroundColor := "#000000" }).result
      = { filename := "photo_800x100_Custom.jpg", width := 800, height := 100 } := by
  decide

/-- Claim C1 (amended): the code defines no InvalidCustomDimensions error;
    instead the App-level validation turns false for Custom settings with
    width ≤ 0 or height ≤ 0, so handleProcess never invokes the pipeline for
    them, while Custom 100x100 passes validation; the pipeline itself, if
    invoked with such settings, substitutes fallback dimensions and
    succeeds. -/
theorem custom_validation_blocks (hasFile : Bool) (s : ProcessingSettings)
    (hc : s.preset = ResolutionPreset.CUSTOM)
    (hbad : s.width ≤ 0 ∨ s.height ≤ 0) :
    isValid s = false ∧
    handleProcessRuns hasFile s = false ∧
    isValid
      { preset := ResolutionPreset.CUSTOM, width := 100, height := 100,
        format := OutputFormat.JPEG, quality := 9/10, fitMode := FitMode.CONTAIN,
        keepAspectRatio := true, backgroundColor := "#000000" } = true := by
  have hv : isValid s = false := by
    rcases hbad with hw | hh
    · simp [isValid, widthError, hc, hw]
    · simp [isValid, heightError, hc, hh]
  refine ⟨hv, ?_, by decide⟩
  simp [handleProcessRuns, hv]

/-- Claim C1, witness: the amended statement at a Custom 0x100 settings
    record with a file selected. -/
theorem custom_validation_blocks_witness :
    isValid
      { preset := ResolutionPreset.CUSTOM, width := 0, height := 100,
        format := OutputFormat.JPEG, quality := 9/10, fitMode := FitMode.STRETCH,
        keepAspectRatio := true, backgroundColor := "#000000" } = false ∧
    handleProcessRuns true
      { preset := ResolutionPreset.CUSTOM, width := 0, height := 100,
        format := OutputFormat.JPEG, quality := 9/10, fitMode := FitMode.STRETCH,
        keepAspectRatio := true, backgroundColor := "#000000" } = false ∧
    isValid
      { preset := ResolutionPreset.CUSTOM, width := 100, height := 100,
        format := OutputFormat.JPEG, quality := 9/10, fitMode := FitMode.CONTAIN,
        keepAspectRatio := true, backgroundColor := "#000000" } = true :=
  custom_validation_blocks true
    { preset := ResolutionPreset.CUSTOM, width := 0, height := 100,
      format := OutputFormat.JPEG, quality := 9/10, fitMode := FitMode.STRETCH,
      keepAspectRatio := true, backgroundColor := "#000000" }
    rfl (Or.inl (by decide))

/-- Claim C3, counterexample: the geometry step has no positivity guard and
    never fails — given the non-positive source width 0 it computes an
    ordinary placement rectangle (here a degenerate one of width 0) instead
    of failing with InvalidDimensions. -/
theorem geometry_unguarded_counterexample :
    placement 0 100 100 100 FitMode.CONTAIN
      = { drawX := 50, drawY := 0, drawW := 0, drawH := 100 } := by
  rw [placement_contain_eq, if_neg (by norm_num)]
  norm_num

/-- Claim C3 (amended): the geometry step itself performs no validation and
    cannot fail; the division targetW / targetH never divides by zero
    because the earlier safety check returns strictly positive target
    dimensions whenever the source image dimensions are nonnegative, while
    srcW / srcH is unguarded. -/
theorem resolved_dims_positive (imageW imageH : ℤ) (s : ProcessingSettings)
    (hw : 0 ≤ imageW) (hh : 0 ≤ imageH) :
    0 < (resolveTargetDimensions imageW imageH s).1 ∧
    0 < (resolveTargetDimensions imageW imageH s).2 := by
  cases hp : s.preset <;>
    simp only [resolveTargetDimensions, hp, RESOLUTIONS, ne_eq] <;>
    split_ifs <;>
    simp_all <;>
    omega

/-- Claim C3, witness: zero-by-zero source image with a Custom -5x0 settings
    record still resolves to positive target dimensions. -/
theorem resolved_dims_positive_witness :
    0 < (resolveTargetDimensions 0 0
        { preset := ResolutionPreset.CUSTOM, width := -5, height := 0,
          format := OutputFormat.PNG, quality := 1, fitMode := FitMode.COVER,
          keepAspectRatio := false, backgroundColor := "transparent" }).1 ∧
    0 < (resolveTargetDimensions 0 0
        { preset := ResolutionPreset.CUSTOM, width := -5, height := 0,
          format := OutputFormat.PNG, quality := 1, fitMode := FitMode.COVER,
          keepAspectRatio := false, backgroundColor := "transparent" }).2 :=
  resolved_dims_positive 0 0
    { preset := ResolutionPreset.CUSTOM, width := -5, height := 0,
      format := OutputFormat.PNG, quality := 1, fitMode := FitMode.COVER,
      keepAspectRatio := false, backgroundColor := "transparent" }
    (by decide) (by decide)

/-- Claim C8: for every settings record whose preset is not Custom, the
    resolved target dimensions are the fixed catalog dimensions of that
    preset, whatever width and height the settings record carries and
    whatever the source dimensions are. -/
theorem preset_dims_win (imageW imageH : ℤ) (s : ProcessingSettings)
    (h : s.preset ≠ ResolutionPreset.CUSTOM) :
    resolveTargetDimensions imageW imageH s
      = ((RESOLUTIONS s.preset).width, (RESOLUTIONS s.preset).height) := by
  cases hp : s.preset <;>
    simp_all [resolveTargetDimensions, RESOLUTIONS]

/-- Claim C8, witness: a 4K UHD settings record carrying stray width 7 and
    height -3 still resolves to 3840x2160. -/
theorem preset_dims_win_witness :
    resolveTargetDimensions 5 9
      { preset := ResolutionPreset.UHD_4K, width := 7, height := -3,
        format := OutputFormat.WEBP, quality := 1/2, fitMode := FitMode.STRETCH,
        keepAspectRatio := true, backgroundColor := "#000000" }
      = (3840, 2160) :=
  preset_dims_win 5 9
    { preset := ResolutionPreset.UHD_4K, width := 7, height := -3,
      format := OutputFormat.WEBP, quality := 1/2, fitMode := FitMode.STRETCH,
      keepAspectRatio := true, backgroundColor := "#000000" }
    (by decide)

/-- Claim C9: the derived filename is the deterministic function of the
    original name, resolved target dimensions, preset and format given by
    the spec template — base name, `_WxH_`, the preset label with spaces
    removed, the canonical extension — and the spec's example holds:
    photo.png at 1920x1080 with preset "1080p FHD" and JPEG yields
    photo_1920x1080_1080pFHD.jpg. -/
theorem filename_matches_spec (name : String) (w h : ℤ)
    (preset : ResolutionPreset) (format : OutputFormat) :
    makeFilename name w h preset format = specFilename name w h preset format ∧
    makeFilename ("photo.png") 1920 1080 ResolutionPreset.FHD_1080 OutputFormat.JPEG
      = "photo_1920x1080_1080pFHD.jpg" := by
  constructor
  · cases preset <;> cases format <;> rfl
  · decide

/-- Claim C10: whenever the target width chosen by the preset logic is not
    positive, the safety check substitutes the source natural width (or 1920
    when that is 0), symmetrically for the height with fallback 1080, and
    the pipeline proceeds: the result metadata carries exactly the resolved
    dimensions. -/
theorem safety_fallback (imageW imageH : ℤ) (name : String)
    (s : ProcessingSettings) :
    ((if s.preset ≠ ResolutionPreset.CUSTOM then (RESOLUTIONS s.preset).width
        else s.width) ≤ 0 →
      (resolveTargetDimensions imageW imageH s).1
        = (if imageW = 0 then 1920 else imageW)) ∧
    ((if s.preset ≠ ResolutionPreset.CUSTOM then (RESOLUTIONS s.preset).height
        else s.height) ≤ 0 →
      (resolveTargetDimensions imageW imageH s).2
        = (if imageH = 0 then 1080 else imageH)) ∧
    (renderToCanvas imageW imageH name s).result.width
      = (resolveTargetDimensions imageW imageH s).1 ∧
    (renderToCanvas imageW imageH name s).result.height
      = (resolveTargetDimensions imageW imageH s).2 := by
  refine ⟨?_, ?_, rfl, rfl⟩
  · intro hle
    simp only [resolveTargetDimensions]
    split_ifs <;> simp_all
  · intro hle
    simp only [resolveTargetDimensions]
    split_ifs <;> simp_all

/-- Claim C10, witness: a Custom -4x0 settings record on an 800x600 source
    resolves to the source natural width and the fallback height 1080, and
    the result metadata carries those dimensions. -/
theorem safety_fallback_witness :
    (resolveTargetDimensions 800 600
        { preset := ResolutionPreset.CUSTOM, width := -4, height := 0,
          format := OutputFormat.WEBP, quality := 3/4, fitMode := FitMode.COVER,
          keepAspectRatio := true, backgroundColor := "#FFFFFF" }).1
      = (if (800 : ℤ) = 0 then 1920 else 800) ∧
    (resolveTargetDimensions 800 600
        { preset := ResolutionPreset.CUSTOM, width := -4, height := 0,
          format := OutputFormat.WEBP, quality := 3/4, fitMode := FitMode.COVER,
          keepAspectRatio := true, backgroundColor := "#FFFFFF" }).2
      = (if (600 : ℤ) = 0 then 1080 else 600) ∧
    (renderToCanvas 800 600 ("img.png")
        { preset := ResolutionPreset.CUSTOM, width := -4, height := 0,
          format := OutputFormat.WEBP, quality := 3/4, fitMode := FitMode.COVER,
          keepAspectRatio := true, backgroundColor := "#FFFFFF" }).result.width
      = (resolveTargetDimensions 800 600
        { preset := ResolutionPreset.CUSTOM, width := -4, height := 0,
          format := OutputFormat.WEBP, quality := 3/4, fitMode := FitMode.COVER,
          keepAspectRatio := true, backgroundColor := "#FFFFFF" }).1 := by
  have h := safety_fallback 800 600 ("img.png")
    { preset := ResolutionPreset.CUSTOM, width := -4, height := 0,
      format := OutputFormat.WEBP, quality := 3/4, fitMode := FitMode.COVER,
      keepAspectRatio := true, backgroundColor := "#FFFFFF" }
  exact ⟨h.1 (by decide), h.2.1 (by decide), h.2.2.1⟩

end SecureRes
